import Mathlib

/-!
Verification development for the LILITH-AI AB498 control plugin and the
computer-control bridge it speaks to.

The executable code of the repository is the LM Studio tools-provider plugin,
present in two variants (a compiled JavaScript variant and a TypeScript
variant).  Both expose screen/input tools whose parameters are validated by
zod schemas and whose implementations forward one JSON-RPC call to a local
server.  We embed:

* a small model of JavaScript JSON values, truthiness and property access;
* the two callRpc helpers (`Compiled.callRpc` and `TS.callRpc`);
* the zod parameter validation of each tool (with defaults) and the list of
  RPC calls its implementation emits;
* the CoordinateMapper / BackendRouter / SafetyGovernor of the design
  document, which have no source under this tree and are therefore modelled
  from the specification text.
-/

/-- A JSON value as seen by the JavaScript of the plugin, extended with
`undefined` so that property access on objects lacking a key can be
expressed.  Arrays are not needed by any of the code under study. -/
inductive Json where
  | undefined : Json
  | null : Json
  | bool : Bool → Json
  | num : ℚ → Json
  | str : String → Json
  | obj : List (String × Json) → Json

/-- First binding of a key in the field list of a JavaScript object;
`undefined` when the key is absent, as in JavaScript. -/
def lookupField : List (String × Json) → String → Json
  | [], _ => .undefined
  | (k, v) :: rest, key => if k = key then v else lookupField rest key

/-- JavaScript property read on a value already known not to be
`null`/`undefined`: objects yield the field (or `undefined`), primitives
yield `undefined`. -/
def jsGet : Json → String → Json
  | .obj fields, k => lookupField fields k
  | _, _ => .undefined

/-- JavaScript truthiness of a JSON value, as tested by `if (x)`:
`undefined`, `null`, `false`, `0` and the empty string are falsy; every
object is truthy. -/
def truthy : Json → Bool
  | .undefined => false
  | .null => false
  | .bool b => b
  | .num q => decide (q ≠ 0)
  | .str s => decide (s ≠ "")
  | .obj _ => true

/-- The part of a fetch HTTP response the plugin inspects: the `ok` flag,
the numeric status, and the JSON body produced by `res.json()`. -/
structure HttpResponse where
  ok : Bool
  status : ℕ
  body : Json

/-- The ways a callRpc helper (or a tool built on it) can throw. -/
inductive RpcError where
  | httpError (status : ℕ)
  | rpcError (e : Json)
  | typeError

/-- JavaScript property read `v.k` where `v` may be `null`/`undefined`:
those two raise a TypeError, everything else reads the property. -/
def jsAccess (v : Json) (k : String) : Except RpcError Json :=
  match v with
  | .undefined => .error .typeError
  | .null => .error .typeError
  | w => .ok (jsGet w k)

namespace Compiled

/-- The callRpc helper of the compiled variant: throws `HTTP <status>` when
`!res.ok`, otherwise parses the body, throws on a truthy `data.error`, and
returns `data.result`. -/
def callRpc (resp : HttpResponse) : Except RpcError Json :=
  if resp.ok = false then .error (.httpError resp.status)
  else
    match jsAccess resp.body "error" with
    | .error err => .error err
    | .ok e =>
      if truthy e then .error (.rpcError e)
      else jsAccess resp.body "result"

end Compiled

namespace TS

/-- The callRpc helper of the TypeScript variant: no `r.ok` check; parses
the body, throws on a truthy `data.error`, and returns `data.result`. -/
def callRpc (resp : HttpResponse) : Except RpcError Json :=
  match jsAccess resp.body "error" with
  | .error err => .error err
  | .ok e =>
    if truthy e then .error (.rpcError e)
    else jsAccess resp.body "result"

end TS

/-- Mouse button accepted by the zod enumeration of
`["left", "right", "middle"]`. -/
inductive Button where
  | left
  | right
  | middle
deriving DecidableEq

/-- The zod check `z.number().min(0).max(1).optional()`: an absent value
passes, a present value must lie in the closed interval from 0 to 1. -/
def relOk : Option ℚ → Bool
  | none => true
  | some v => decide (0 ≤ v) && decide (v ≤ 1)

/-- Raw input of the `click_screen` tool before zod validation. -/
structure ClickScreenArgs where
  x : Option ℚ
  y : Option ℚ
  x_rel : Option ℚ
  y_rel : Option ℚ
  button : Option Button
deriving DecidableEq

/-- Arguments of `click_screen` after zod parsing: the button default has
been applied; coordinates are forwarded exactly as given. -/
structure ClickScreenParsed where
  x : Option ℚ
  y : Option ℚ
  x_rel : Option ℚ
  y_rel : Option ℚ
  button : Button
deriving DecidableEq

/-- The zod parsing of `click_screen` parameters: `x`/`y` are unconstrained
optionals, `x_rel`/`y_rel` must be in the unit interval when present,
`button` defaults to left.  No cross-field rule relates the two coordinate
representations. -/
def parseClickScreen (a : ClickScreenArgs) : Option ClickScreenParsed :=
  if relOk a.x_rel && relOk a.y_rel then
    some ⟨a.x, a.y, a.x_rel, a.y_rel, a.button.getD .left⟩
  else none

/-- Raw input of the `move_mouse` tool before zod validation. -/
structure MoveMouseArgs where
  x : Option ℚ
  y : Option ℚ
  x_rel : Option ℚ
  y_rel : Option ℚ
  duration : Option ℚ
deriving DecidableEq

/-- Arguments of `move_mouse` after zod parsing, `duration` defaulted to
0.2 seconds. -/
structure MoveMouseParsed where
  x : Option ℚ
  y : Option ℚ
  x_rel : Option ℚ
  y_rel : Option ℚ
  duration : ℚ
deriving DecidableEq

/-- The zod parsing of `move_mouse` parameters: same coordinate schema as
`click_screen`, with `duration` defaulting to 0.2. -/
def parseMoveMouse (a : MoveMouseArgs) : Option MoveMouseParsed :=
  if relOk a.x_rel && relOk a.y_rel then
    some ⟨a.x, a.y, a.x_rel, a.y_rel, a.duration.getD (1/5)⟩
  else none

/-- Parameter payload of one JSON-RPC call emitted by a tool. -/
inductive RpcParams where
  | clickScreen (p : ClickScreenParsed)
  | moveMouse (p : MoveMouseParsed)
  | mouseClick (button : Button)
  | mouseMove (x y duration : ℚ)
  | keyboardType (text : String) (interval : ℚ)
deriving DecidableEq

/-- One JSON-RPC call sent to the local AB498 server. -/
structure RpcCall where
  method : String
  params : RpcParams
deriving DecidableEq

/-- RPC calls emitted by a `click_screen` invocation: validation failure
emits none, success forwards the parsed arguments in one call. -/
def clickScreenCalls (a : ClickScreenArgs) : List RpcCall :=
  match parseClickScreen a with
  | some p => [⟨"click_screen", .clickScreen p⟩]
  | none => []

/-- RPC calls emitted by a `move_mouse` invocation. -/
def moveMouseCalls (a : MoveMouseArgs) : List RpcCall :=
  match parseMoveMouse a with
  | some p => [⟨"move_mouse", .moveMouse p⟩]
  | none => []

/-- RPC calls emitted by `mouse_click`: the optional button defaults to
left and is forwarded. -/
def mouseClickCalls (button : Option Button) : List RpcCall :=
  [⟨"mouse_click", .mouseClick (button.getD .left)⟩]

/-- RPC calls emitted by `mouse_move`: required absolute coordinates,
optional `duration` defaulting to 0.2, all forwarded. -/
def mouseMoveCalls (x y : ℚ) (duration : Option ℚ) : List RpcCall :=
  [⟨"mouse_move", .mouseMove x y (duration.getD (1/5))⟩]

/-- RPC calls emitted by `keyboard_type`: the text plus the optional
`interval` defaulting to 0.0. -/
def keyboardTypeCalls (text : String) (interval : Option ℚ) : List RpcCall :=
  [⟨"keyboard_type", .keyboardType text (interval.getD 0)⟩]

/-- The `screen_capture` tool (compiled variant): call the RPC server and
return the `image` property of the result. -/
def screenCaptureTool (resp : HttpResponse) : Except RpcError Json :=
  match Compiled.callRpc resp with
  | .error e => .error e
  | .ok res => jsAccess res "image"

/-- The `take_screenshot` tool (TypeScript variant): call the RPC server,
destructure the `image` property from the result and return it. -/
def takeScreenshotTool (resp : HttpResponse) : Except RpcError Json :=
  match TS.callRpc resp with
  | .error e => .error e
  | .ok data => jsAccess data "image"

/-- A monitor geometry entry, as in the data model of the design document. -/
structure MonitorDescriptor where
  id : ℕ
  x : ℤ
  y : ℤ
  width : ℤ
  height : ℤ
  is_primary : Bool

/-- Modelled from the spec: the relative branch of `CoordinateMapper.resolve`
— no CoordinateMapper source exists under this tree, so the resolution rule
is taken verbatim from the specification: `x = frame.x + x_rel * frame.width`,
`y = frame.y + y_rel * frame.height`, rounded to the nearest integer pixel. -/
def resolve (frame : MonitorDescriptor) (x_rel y_rel : ℚ) : ℤ × ℤ :=
  (round ((frame.x : ℚ) + x_rel * frame.width),
   round ((frame.y : ℚ) + y_rel * frame.height))

/-- Whether a pixel lies inside a monitor frame: a frame of width `w`
starting at column `x` covers pixel columns `x` up to `x + w - 1`, and
likewise for rows. -/
def pixelInFrame (m : MonitorDescriptor) (p : ℤ × ℤ) : Prop :=
  m.x ≤ p.1 ∧ p.1 < m.x + m.width ∧ m.y ≤ p.2 ∧ p.2 < m.y + m.height

instance (m : MonitorDescriptor) (p : ℤ × ℤ) : Decidable (pixelInFrame m p) := by
  unfold pixelInFrame; infer_instance

/-- The monitor used in the end-to-end example of the specification. -/
def exampleMonitor : MonitorDescriptor :=
  ⟨1, 0, 0, 1920, 1080, true⟩

/-- A candidate automation backend with the (predetermined) outcome of
attempting it: an error reason on failure, a payload on success. -/
structure Backend where
  id : String
  attempt : Except String String

/-- Per-backend error reason, for aggregation after a failed attempt. -/
def reasonOf : Except String String → String
  | .error e => e
  | .ok _ => ""

/-- Result of a routed operation, as in the data model of the design
document, extended with the ordered list of attempted backends (the audit
trail). -/
structure ActionResult where
  ok : Bool
  backend_used : Option String
  payload : Option String
  errors : List (String × String)
  attempts : List String
deriving DecidableEq

/-- Modelled from the spec: `BackendRouter.execute` — no BackendRouter
source exists under this tree.  The backends are tried strictly in order;
the first success stops the loop; a failure is recorded together with its
reason and the next backend is tried; when every backend fails the result
is `ok = false` with the aggregated per-backend reasons. -/
def execute : List Backend → ActionResult
  | [] => ⟨false, none, none, [], []⟩
  | b :: rest =>
    match b.attempt with
    | .ok p => ⟨true, some b.id, some p, [], [b.id]⟩
    | .error e =>
      let r := execute rest
      ⟨r.ok, r.backend_used, r.payload, (b.id, e) :: r.errors, b.id :: r.attempts⟩

/-- Sliding rate-limit window, as in the data model of the design document. -/
structure RateWindow where
  window_start : ℕ
  count : ℕ
  limit : ℕ
deriving DecidableEq

/-- Outcome of a SafetyGovernor rate check. -/
inductive Decision where
  | allow
  | denyRateLimited
deriving DecidableEq

/-- Modelled from the spec: the SafetyGovernor rate check — no
SafetyGovernor source exists under this tree.  A fixed 60-second window is
reset atomically once elapsed; within the window the counter increments on
each allowed call and saturates at the configured limit, further calls
being denied with RateLimited. -/
def rateCheck (now : ℕ) (w : RateWindow) : Decision × RateWindow :=
  let w' := if w.window_start + 60 ≤ now then
      { w with window_start := now, count := 0 }
    else w
  if w'.count < w'.limit then (.allow, { w' with count := w'.count + 1 })
  else (.denyRateLimited, w')

/-- Run a sequence of rate checks at the given call times, threading the
window state and collecting the decisions. -/
def runCalls : List ℕ → RateWindow → List Decision × RateWindow
  | [], w => ([], w)
  | t :: ts, w =>
    let s := rateCheck t w
    let r := runCalls ts s.2
    (s.1 :: r.1, r.2)

/-- A JSON-RPC response whose body carries a well-formed error object. -/
def respWithError : HttpResponse :=
  ⟨true, 200, .obj [("jsonrpc", .str "2.0"),
    ("error", .obj [("code", .num (-32601)), ("message", .str "Method not found")]),
    ("id", .num 1)]⟩

/-- A successful screen-capture response carrying a data-URI image. -/
def respCapture : HttpResponse :=
  ⟨true, 200, .obj [("jsonrpc", .str "2.0"),
    ("result", .obj [("image", .str "data:image/png;base64,iVBORw0KGgo=")]),
    ("id", .num 1)]⟩

/-- A non-ok HTTP response whose JSON body carries no error object. -/
def mismatchResp : HttpResponse :=
  ⟨false, 500, .obj [("jsonrpc", .str "2.0"), ("result", .num 7), ("id", .num 1)]⟩

/-- An ok HTTP response with a plain result. -/
def okResp : HttpResponse :=
  ⟨true, 200, .obj [("jsonrpc", .str "2.0"), ("result", .num 42), ("id", .num 1)]⟩

/-- Reading a key out of a JSON value can only produce an object when the
value itself is an object. -/
theorem jsGet_eq_obj {b : Json} {k : String} {fs : List (String × Json)}
    (h : jsGet b k = Json.obj fs) : ∃ l, b = Json.obj l := by
  cases b <;> simp [jsGet] at h ⊢

/-- Property access on an object value never throws and yields the field. -/
theorem jsAccess_obj (l : List (String × Json)) (k : String) :
    jsAccess (Json.obj l) k = .ok (lookupField l k) := rfl

/-- Claim C1, amended: the zod validation of `click_screen` and `move_mouse`
checks only that the relative values, when present, lie in the unit
interval; the presence or absence of the absolute coordinates never changes
the validation outcome, and every request that passes validation — with
both, one, or neither coordinate representation present — is dispatched as
exactly one RPC call.  The exactly-one-representation rule is not enforced
by this plugin. -/
theorem c1_amended :
    (∀ (a : ClickScreenArgs) (x' y' : Option ℚ),
        (parseClickScreen { a with x := x', y := y' }).isSome = (parseClickScreen a).isSome)
  ∧ (∀ a : ClickScreenArgs,
        (clickScreenCalls a).length = if relOk a.x_rel && relOk a.y_rel then 1 else 0)
  ∧ (∀ (a : MoveMouseArgs) (x' y' : Option ℚ),
        (parseMoveMouse { a with x := x', y := y' }).isSome = (parseMoveMouse a).isSome)
  ∧ (∀ a : MoveMouseArgs,
        (moveMouseCalls a).length = if relOk a.x_rel && relOk a.y_rel then 1 else 0) := by
  refine ⟨?_, ?_, ?_, ?_⟩
  · intro a x' y'
    cases h : relOk a.x_rel && relOk a.y_rel <;> simp [parseClickScreen, h]
  · intro a
    cases h : relOk a.x_rel && relOk a.y_rel <;>
      simp [clickScreenCalls, parseClickScreen, h]
  · intro a x' y'
    cases h : relOk a.x_rel && relOk a.y_rel <;> simp [parseMoveMouse, h]
  · intro a
    cases h : relOk a.x_rel && relOk a.y_rel <;>
      simp [moveMouseCalls, parseMoveMouse, h]

/-- Claim C1 as frozen is false on the code: a `click_screen` request with
both coordinate representations present, and a `move_mouse` request with
neither representation present, each pass zod validation and are dispatched
to the RPC server (one call each) instead of being rejected as a
CoordinateInvalid validation error. -/
theorem c1_counterexample :
    (clickScreenCalls ⟨some 100, some 200, some (1/2), some (1/2), none⟩).length = 1
  ∧ (moveMouseCalls ⟨none, none, none, none, none⟩).length = 1 := by
  constructor
  · norm_num [clickScreenCalls, parseClickScreen, relOk]
  · rfl

/-- Claim C2: relative coordinates resolve by the frame formula rounded to
the nearest integer pixel; in particular the centre of a 1920 by 1080
monitor at the origin resolves to pixel (960, 540), and the corresponding
`click_screen` request dispatches exactly one mouse-click RPC call. -/
theorem c2_center_resolution :
    (∀ (m : MonitorDescriptor) (xr yr : ℚ),
        resolve m xr yr
          = (round ((m.x : ℚ) + xr * m.width), round ((m.y : ℚ) + yr * m.height)))
  ∧ resolve exampleMonitor (1/2) (1/2) = (960, 540)
  ∧ clickScreenCalls ⟨none, none, some (1/2), some (1/2), none⟩
      = [⟨"click_screen", .clickScreen ⟨none, none, some (1/2), some (1/2), .left⟩⟩] := by
  refine ⟨fun _ _ _ => rfl, ?_, ?_⟩
  · norm_num [resolve, exampleMonitor, round_eq]
  · norm_num [clickScreenCalls, parseClickScreen, relOk]

/-- Claim C3, amended: relative (0, 0) resolves to exactly the top-left
corner pixel of the frame, but relative (1, 1) resolves to
(frame.x + frame.width, frame.y + frame.height), which is one pixel past
the bottom-right pixel of the frame, as forced by the resolution formula of
the specification. -/
theorem c3_amended (m : MonitorDescriptor) :
    resolve m 0 0 = (m.x, m.y)
  ∧ resolve m 1 1 = (m.x + m.width, m.y + m.height) := by
  constructor
  · simp [resolve]
  · have hx : ((m.x : ℚ) + 1 * (m.width : ℚ)) = ((m.x + m.width : ℤ) : ℚ) := by
      push_cast; ring
    have hy : ((m.y : ℚ) + 1 * (m.height : ℚ)) = ((m.y + m.height : ℤ) : ℚ) := by
      push_cast; ring
    simp [resolve, hx, hy]

/-- Claim C3 as frozen is false under the resolution formula of the
specification: on the example monitor, relative (1, 1) resolves to
(1920, 1080), a pixel that lies outside the frame (whose pixels end at
(1919, 1079)), i.e. one past the frame boundary. -/
theorem c3_counterexample :
    resolve exampleMonitor 1 1 = (1920, 1080)
  ∧ ¬ pixelInFrame exampleMonitor (resolve exampleMonitor 1 1) := by
  constructor
  · norm_num [resolve, exampleMonitor, round_eq]
  · norm_num [pixelInFrame, resolve, exampleMonitor, round_eq]

/-- Claim C4: a relative coordinate value outside the unit interval is
rejected by the zod parameter validation of `click_screen` and
`move_mouse`, and no RPC call is forwarded to the server. -/
theorem c4_out_of_range_rejected (v : ℚ) (hv : v < 0 ∨ 1 < v) :
    (∀ a : ClickScreenArgs, a.x_rel = some v ∨ a.y_rel = some v → clickScreenCalls a = [])
  ∧ (∀ a : MoveMouseArgs, a.x_rel = some v ∨ a.y_rel = some v → moveMouseCalls a = []) := by
  have hrel : relOk (some v) = false := by
    rcases hv with h | h
    · have h0 : ¬ (0 ≤ v) := not_le.mpr h
      simp [relOk, h0]
    · have h1 : ¬ (v ≤ 1) := not_le.mpr h
      simp [relOk, h1]
  constructor
  · intro a ha
    rcases ha with h | h <;> simp [clickScreenCalls, parseClickScreen, h, hrel]
  · intro a ha
    rcases ha with h | h <;> simp [moveMouseCalls, parseMoveMouse, h, hrel]

/-- Witness for C4: a `click_screen` request with `x_rel = 3/2` and a
`move_mouse` request with `y_rel = -1` are both rejected and emit no RPC
call. -/
theorem c4_witness :
    clickScreenCalls ⟨none, none, some (3/2), none, none⟩ = []
  ∧ moveMouseCalls ⟨none, none, none, some (-1), none⟩ = [] := by
  constructor
  · exact (c4_out_of_range_rejected (3/2) (by norm_num)).1 _ (Or.inl rfl)
  · exact (c4_out_of_range_rejected (-1) (by norm_num)).2 _ (Or.inr rfl)

/-- Claim C5: whenever the JSON-RPC response body carries an error field
holding a (necessarily truthy) JSON-RPC error object, both callRpc variants
throw and return no result; and whenever either variant does return a
result, a protocol-conformant response (error field absent or an object)
cannot have carried an error. -/
theorem c5_errors_never_swallowed :
    (∀ (resp : HttpResponse) (fs : List (String × Json)),
        jsGet resp.body "error" = Json.obj fs →
          (∃ err, Compiled.callRpc resp = .error err)
        ∧ (∃ err, TS.callRpc resp = .error err))
  ∧ (∀ resp : HttpResponse,
        (jsGet resp.body "error" = Json.undefined
          ∨ ∃ fs, jsGet resp.body "error" = Json.obj fs) →
        (∀ r, Compiled.callRpc resp = .ok r → jsGet resp.body "error" = Json.undefined)
      ∧ (∀ r, TS.callRpc resp = .ok r → jsGet resp.body "error" = Json.undefined)) := by
  have main : ∀ (resp : HttpResponse) (fs : List (String × Json)),
      jsGet resp.body "error" = Json.obj fs →
        (∃ err, Compiled.callRpc resp = .error err)
      ∧ (∃ err, TS.callRpc resp = .error err) := by
    intro resp fs h
    obtain ⟨l, hb⟩ := jsGet_eq_obj h
    rw [hb] at h
    simp [jsGet] at h
    have hAcc : jsAccess resp.body "error" = .ok (Json.obj fs) := by
      rw [hb, jsAccess_obj, h]
    constructor
    · cases hok : resp.ok
      · exact ⟨.httpError resp.status, by simp [Compiled.callRpc, hok]⟩
      · exact ⟨.rpcError (.obj fs), by simp [Compiled.callRpc, hok, hAcc, truthy]⟩
    · exact ⟨.rpcError (.obj fs), by simp [TS.callRpc, hAcc, truthy]⟩
  refine ⟨main, ?_⟩
  intro resp hconf
  constructor
  · intro r h
    rcases hconf with hu | ⟨fs, hobj⟩
    · exact hu
    · obtain ⟨err, he⟩ := (main resp fs hobj).1
      rw [he] at h
      exact Except.noConfusion h
  · intro r h
    rcases hconf with hu | ⟨fs, hobj⟩
    · exact hu
    · obtain ⟨err, he⟩ := (main resp fs hobj).2
      rw [he] at h
      exact Except.noConfusion h

/-- Witness for C5: on a concrete response carrying a method-not-found
error object, both callRpc variants throw. -/
theorem c5_witness :
    (∃ err, Compiled.callRpc respWithError = .error err)
  ∧ (∃ err, TS.callRpc respWithError = .error err) :=
  c5_errors_never_swallowed.1 respWithError
    [("code", .num (-32601)), ("message", .str "Method not found")] rfl

/-- Claim C6: with backend list A, B, C where A and B fail and C succeeds,
execute tries the backends strictly in order, stops at the first success
and returns ok with `backend_used = C`, the two failures recorded; when
every backend in a list fails, execute returns not-ok with the aggregated
per-backend error reasons, all attempts appearing in order. -/
theorem c6_router_fallback :
    (∀ (A B C : Backend) (ra rb p : String),
        A.attempt = .error ra → B.attempt = .error rb → C.attempt = .ok p →
        execute [A, B, C]
          = ⟨true, some C.id, some p, [(A.id, ra), (B.id, rb)], [A.id, B.id, C.id]⟩)
  ∧ (∀ bs : List Backend, (∀ b ∈ bs, ∃ e, b.attempt = .error e) →
        (execute bs).ok = false
      ∧ (execute bs).errors = bs.map (fun b => (b.id, reasonOf b.attempt))
      ∧ (execute bs).attempts = bs.map Backend.id) := by
  constructor
  · intro A B C ra rb p hA hB hC
    simp [execute, hA, hB, hC]
  · intro bs
    induction bs with
    | nil => intro _; simp [execute]
    | cons b rest ih =>
      intro h
      obtain ⟨e, he⟩ := h b (by simp)
      have hr := ih (fun x hx => h x (by simp [hx]))
      simp [execute, he, reasonOf, hr.1, hr.2.1, hr.2.2]

/-- Witness for C6: a concrete three-backend list where the first two fail
and the third succeeds. -/
theorem c6_witness :
    execute [⟨"A", .error "ra"⟩, ⟨"B", .error "rb"⟩, ⟨"C", .ok "done"⟩]
      = ⟨true, some "C", some "done", [("A", "ra"), ("B", "rb")], ["A", "B", "C"]⟩ :=
  c6_router_fallback.1 ⟨"A", .error "ra"⟩ ⟨"B", .error "rb"⟩ ⟨"C", .ok "done"⟩
    "ra" "rb" "done" rfl rfl rfl

/-- Claim C7: with a limit of 5 per 60-second window, the first five calls
are allowed and the sixth is denied RateLimited; after the window elapses a
call is allowed again; and the saturating counter never increments past the
configured limit. -/
theorem c7_rate_limit :
    ((runCalls [0, 10, 20, 30, 40, 50] ⟨0, 0, 5⟩).1
        = [.allow, .allow, .allow, .allow, .allow, .denyRateLimited])
  ∧ ((runCalls [0, 10, 20, 30, 40, 50, 60] ⟨0, 0, 5⟩).1
        = [.allow, .allow, .allow, .allow, .allow, .denyRateLimited, .allow])
  ∧ (∀ (now : ℕ) (w : RateWindow), w.count ≤ w.limit →
        ((rateCheck now w).2).count ≤ w.limit)
  ∧ (∀ (now : ℕ) (w : RateWindow), 0 < w.limit → w.window_start + 60 ≤ now →
        (rateCheck now w).1 = .allow) := by
  refine ⟨rfl, rfl, ?_, ?_⟩
  · intro now w h
    simp only [rateCheck]
    split <;> split <;> simp_all <;> omega
  · intro now w hl hw
    simp [rateCheck, hw, hl]

/-- Witness for C7: on a saturated window the counter stays at the limit,
and a call after the window has elapsed is allowed. -/
theorem c7_witness :
    ((rateCheck 45 ⟨0, 5, 5⟩).2).count ≤ 5 ∧ (rateCheck 60 ⟨0, 5, 5⟩).1 = .allow :=
  ⟨c7_rate_limit.2.2.1 45 ⟨0, 5, 5⟩ (by decide),
   c7_rate_limit.2.2.2 60 ⟨0, 5, 5⟩ (by decide) (by decide)⟩

/-- Claim C8: on a successful screen-capture RPC response whose result
object carries an image string, both `screen_capture` and `take_screenshot`
return exactly that image field. -/
theorem c8_image_field (resp : HttpResponse) (rfields : List (String × Json)) (s : String)
    (hok : resp.ok = true)
    (herr : jsGet resp.body "error" = Json.undefined)
    (hres : jsGet resp.body "result" = Json.obj rfields)
    (himg : lookupField rfields "image" = Json.str s) :
    screenCaptureTool resp = .ok (.str s) ∧ takeScreenshotTool resp = .ok (.str s) := by
  obtain ⟨l, hb⟩ := jsGet_eq_obj hres
  rw [hb] at herr hres
  simp [jsGet] at herr hres
  have hAccErr : jsAccess resp.body "error" = .ok Json.undefined := by
    rw [hb, jsAccess_obj, herr]
  have hAccRes : jsAccess resp.body "result" = .ok (Json.obj rfields) := by
    rw [hb, jsAccess_obj, hres]
  have hts : TS.callRpc resp = .ok (Json.obj rfields) := by
    simp [TS.callRpc, hAccErr, truthy, hAccRes]
  have hcp : Compiled.callRpc resp = .ok (Json.obj rfields) := by
    simp [Compiled.callRpc, hok, hAccErr, truthy, hAccRes]
  constructor
  · simp [screenCaptureTool, hcp, jsAccess, jsGet, himg]
  · simp [takeScreenshotTool, hts, jsAccess, jsGet, himg]

/-- Witness for C8: a concrete capture response whose data-URI image string
is returned verbatim by both tools. -/
theorem c8_witness :
    screenCaptureTool respCapture = .ok (.str "data:image/png;base64,iVBORw0KGgo=")
  ∧ takeScreenshotTool respCapture = .ok (.str "data:image/png;base64,iVBORw0KGgo=") :=
  c8_image_field respCapture [("image", .str "data:image/png;base64,iVBORw0KGgo=")]
    "data:image/png;base64,iVBORw0KGgo=" rfl rfl rfl rfl

/-- Claim C9: when an optional parameter is omitted, the declared default
is forwarded to the RPC server: `mouse_click` sends button left,
`mouse_move` and `move_mouse` send duration 0.2, `keyboard_type` sends
interval 0.0, and `click_screen` sends button left. -/
theorem c9_defaults :
    (mouseClickCalls none = [⟨"mouse_click", .mouseClick .left⟩])
  ∧ (∀ x y : ℚ, mouseMoveCalls x y none = [⟨"mouse_move", .mouseMove x y (1/5)⟩])
  ∧ (∀ t : String, keyboardTypeCalls t none = [⟨"keyboard_type", .keyboardType t 0⟩])
  ∧ (∀ x y x_rel y_rel, relOk x_rel = true → relOk y_rel = true →
        clickScreenCalls ⟨x, y, x_rel, y_rel, none⟩
          = [⟨"click_screen", .clickScreen ⟨x, y, x_rel, y_rel, .left⟩⟩])
  ∧ (∀ x y x_rel y_rel, relOk x_rel = true → relOk y_rel = true →
        moveMouseCalls ⟨x, y, x_rel, y_rel, none⟩
          = [⟨"move_mouse", .moveMouse ⟨x, y, x_rel, y_rel, 1/5⟩⟩]) := by
  refine ⟨rfl, fun x y => rfl, fun t => rfl, ?_, ?_⟩ <;>
    · intro x y xr yr hx hy
      simp [clickScreenCalls, moveMouseCalls, parseClickScreen, parseMoveMouse, hx, hy]

/-- Witness for C9: a `click_screen` request at the screen centre with the
button omitted dispatches with button left. -/
theorem c9_witness :
    clickScreenCalls ⟨none, none, some (1/2), some (1/2), none⟩
      = [⟨"click_screen", .clickScreen ⟨none, none, some (1/2), some (1/2), .left⟩⟩] :=
  c9_defaults.2.2.2.1 none none (some (1/2)) (some (1/2))
    (by norm_num [relOk]) (by norm_num [relOk])

/-- Claim C10, amended: the two callRpc variants agree on every HTTP
response whose `ok` flag is set; they diverge only on non-ok responses,
where the compiled variant throws an HTTP error before reading the body
while the TypeScript variant ignores the HTTP status entirely. -/
theorem c10_amended (resp : HttpResponse) (h : resp.ok = true) :
    Compiled.callRpc resp = TS.callRpc resp := by
  simp [Compiled.callRpc, TS.callRpc, h]

/-- Claim C10 as frozen is false: on a 500-status response whose body
carries no JSON-RPC error object, the compiled variant throws an HTTP error
while the TypeScript variant returns the result, so the two variants are
not observationally equivalent. -/
theorem c10_counterexample :
    Compiled.callRpc mismatchResp = .error (.httpError 500)
  ∧ TS.callRpc mismatchResp = .ok (.num 7)
  ∧ Compiled.callRpc mismatchResp ≠ TS.callRpc mismatchResp := by
  refine ⟨rfl, rfl, ?_⟩
  intro h
  exact Except.noConfusion h

/-- Witness for the amended C10: on a concrete ok response the two
variants return the same result. -/
theorem c10_witness : Compiled.callRpc okResp = TS.callRpc okResp :=
  c10_amended okResp rfl
